import Mathlib

/-!
Shallow embedding of the `postgres-agents` repository: the legal-case
retrieval tools from `legal_agent_tools.py` (vector search, count, and the
DSN-to-URI conversion), the agent-session polling loop of
`advanced_postgres_and_ai_agent_with_tracing.py`, and the agent resolution
logic shared with `simple_postgres_and_ai_agent.py`.
-/

namespace LegalAgent

/-! ### Calendar dates, modelling `datetime.strptime(s, "%Y-%m-%d")` -/

/-- A calendar date as produced by Python `datetime.strptime` with format
`%Y-%m-%d` (only the date fields are relevant to the embedded code). -/
structure Date where
  year : Nat
  month : Nat
  day : Nat
deriving DecidableEq

/-- Numeric key giving the order in which SQL compares values of the
`decision_date` column (lexicographic on year, month, day; faithful for
calendar dates, whose month is below 100 and day below 100). -/
def dateKey (d : Date) : Nat := d.year * 10000 + d.month * 100 + d.day

/-- Gregorian leap-year rule, as validated by the Python `datetime`
constructor that `strptime` calls. -/
def isLeap (y : Nat) : Bool := (y % 4 == 0 && y % 100 != 0) || y % 400 == 0

/-- Number of days of month `m` in year `y`, as validated by Python
`datetime`. -/
def daysInMonth (y m : Nat) : Nat :=
  if m == 2 then (if isLeap y then 29 else 28)
  else if m == 4 || m == 6 || m == 9 || m == 11 then 30
  else 31

/-- Value of a non-empty all-digit string, `none` otherwise. -/
def digitsVal (s : List Char) : Option Nat :=
  if s.isEmpty then none
  else if s.all Char.isDigit then
    some (s.foldl (fun n c => n * 10 + (c.toNat - Char.toNat '0')) 0)
  else none

/-- Split a character list at every occurrence of `sep` (the separators are
dropped; like Python `str.split(sep)`). -/
def splitOnChar (sep : Char) : List Char → List (List Char)
  | [] => [[]]
  | c :: t =>
    if c = sep then [] :: splitOnChar sep t
    else
      match splitOnChar sep t with
      | [] => [[c]]
      | w :: ws => (c :: w) :: ws

/-- Model of CPython `datetime.strptime(s, "%Y-%m-%d")`: the year is exactly
four digits and at least 1, month and day are one or two digits, the month is
in 1..12 and the day is in 1..(days of that month); the whole string must be
consumed.  Note this accepts unpadded months and days such as "2020-1-2",
exactly as CPython does. -/
def parseYmd (s : String) : Option Date :=
  match splitOnChar '-' s.toList with
  | [ys, ms, ds] =>
    if ys.length = 4 then
      match digitsVal ys, digitsVal ms, digitsVal ds with
      | some y, some m, some d =>
        if 1 ≤ y ∧ ms.length ≤ 2 ∧ 1 ≤ m ∧ m ≤ 12 ∧ ds.length ≤ 2 ∧
            1 ≤ d ∧ d ≤ daysInMonth y m
        then some ⟨y, m, d⟩ else none
      | _, _, _ => none
    else none
  | _ => none

/-- Strict ISO `YYYY-MM-DD` form: accepted by `parseYmd` and fully
zero-padded (length exactly 10). -/
def isIsoYmd (s : String) : Bool := (parseYmd s).isSome && s.length == 10

/-! ### The `cases` table and the two SQL queries of `legal_agent_tools.py`

The database is modelled as a list of rows of the `cases` table.  The value
of the SQL expression
`opinions_vector <=> azure_openai.create_embeddings(model, query)::vector`
is an opaque per-row rational number, supplied as a function `sim`
determined by the embedding model, the query text and the stored vector. -/

/-- A row of the `cases` table (the columns the embedded queries touch). -/
structure CaseRow where
  id : Int
  name : String
  opinion : String
  decision_date : Date
deriving DecidableEq

/-- Comparison used by `ORDER BY similarity`: ascending similarity
distance. -/
def simLe (a b : CaseRow × Rat) : Prop := a.2 ≤ b.2

instance : DecidableRel simLe := fun a b => inferInstanceAs (Decidable (a.2 ≤ b.2))

instance : IsTotal (CaseRow × Rat) simLe := ⟨fun a b => le_total a.2 b.2⟩

instance : IsTrans (CaseRow × Rat) simLe := ⟨fun _ _ _ hab hbc => le_trans hab hbc⟩

/-- SQL predicate `decision_date BETWEEN s AND e` (inclusive on both
ends). -/
def dateInRange (s e d : Date) : Bool :=
  decide (dateKey s ≤ dateKey d) && decide (dateKey d ≤ dateKey e)

/-- Result rows of the SQL statement of `vector_search_cases`:

`SELECT id, name, opinion, <distance> AS similarity FROM cases
 WHERE decision_date BETWEEN s AND e ORDER BY similarity LIMIT lim`.

Each result row is the source row paired with its similarity value. -/
def vector_search_sql (table : List CaseRow) (sim : CaseRow → Rat)
    (s e : Date) (lim : Nat) : List (CaseRow × Rat) :=
  (List.insertionSort simLe
    ((table.filter (fun r => dateInRange s e r.decision_date)).map
      (fun r => (r, sim r)))).take lim

/-- Result rows of the SQL statement of `count_cases`:

`SELECT COUNT(*) FROM cases WHERE <distance> < 0.8 LIMIT lim`.

The aggregate without `GROUP BY` produces exactly one row holding the full
count of matching rows; `LIMIT` then bounds the number of result rows (not
the counted value). -/
def count_cases_sql (table : List CaseRow) (sim : CaseRow → Rat)
    (lim : Nat) : List Nat :=
  [(table.filter (fun r => decide (sim r < mkRat 8 10))).length].take lim

/-- The threshold written `mkRat 8 10` above is the literal `0.8` of the SQL
text. -/
theorem count_threshold_eq : (0.8 : Rat) = mkRat 8 10 := by norm_num

/-! ### JSON values and serialization

The tools return `json.dumps(df.to_json(orient="records"))`: the data frame
is first rendered as a JSON text (an array of record objects), and that text
is then JSON-encoded once more, yielding a JSON string literal.  JSON values
are modelled by a small AST with its own list spines so that the serializer
is structurally recursive; texts are lists of characters. -/

mutual

inductive Json where
  | num (q : Rat)
  | str (s : List Char)
  | arr (elems : JsonList)
  | obj (fields : JsonFields)

inductive JsonList where
  | nil
  | cons (hd : Json) (tl : JsonList)

inductive JsonFields where
  | nil
  | cons (key : List Char) (val : Json) (tl : JsonFields)

end

/-- View a Lean list of JSON values as a `JsonList` spine. -/
def JsonList.ofList : List Json → JsonList
  | [] => JsonList.nil
  | j :: t => JsonList.cons j (JsonList.ofList t)

/-- Number of elements of a `JsonList`. -/
def JsonList.length : JsonList → Nat
  | JsonList.nil => 0
  | JsonList.cons _ t => JsonList.length t + 1

/-- JSON escaping of one character inside a string literal (quote and
backslash; other characters pass through). -/
def escapeChar (c : Char) : List Char :=
  if c = '"' then ['\\', '"']
  else if c = '\\' then ['\\', '\\']
  else [c]

/-- JSON escaping of a text. -/
def escape (s : List Char) : List Char := (s.map escapeChar).flatten

mutual

/-- Render a JSON value as text (numbers via `toString` on `Rat`; strings
quoted and escaped; arrays and objects bracketed and comma-separated). -/
def serialize : Json → List Char
  | Json.num q => (toString q).toList
  | Json.str s => '"' :: (escape s ++ ['"'])
  | Json.arr xs => '[' :: (serializeList xs ++ [']'])
  | Json.obj kvs => '\x7b' :: (serializeFields kvs ++ ['\x7d'])

/-- Render array elements, comma-separated. -/
def serializeList : JsonList → List Char
  | JsonList.nil => []
  | JsonList.cons x JsonList.nil => serialize x
  | JsonList.cons x (JsonList.cons y tl) =>
    serialize x ++ (',' :: serializeList (JsonList.cons y tl))

/-- Render object fields, comma-separated. -/
def serializeFields : JsonFields → List Char
  | JsonFields.nil => []
  | JsonFields.cons k v JsonFields.nil =>
    '"' :: (escape k ++ ('"' :: ':' :: serialize v))
  | JsonFields.cons k v (JsonFields.cons k2 v2 tl) =>
    ('"' :: (escape k ++ ('"' :: ':' :: serialize v))) ++
      (',' :: serializeFields (JsonFields.cons k2 v2 tl))

end

/-- Parsing relation: a text parses to the JSON value that serializes to it
(the JSON grammar is unambiguous, so this is the specification of a one-pass
`json.loads`). -/
def ParsesTo (s : List Char) (j : Json) : Prop := serialize j = s

/-- One result row of `vector_search_cases` as a JSON record, as rendered by
`df.to_json(orient="records")` on the columns `id, name, opinion,
similarity`. -/
def rowRecordJson (r : CaseRow × Rat) : Json :=
  Json.obj (JsonFields.cons "id".toList (Json.num r.1.id)
    (JsonFields.cons "name".toList (Json.str r.1.name.toList)
      (JsonFields.cons "opinion".toList (Json.str r.1.opinion.toList)
        (JsonFields.cons "similarity".toList (Json.num r.2) JsonFields.nil))))

/-- The inner text `df.to_json(orient="records")` for the search tool: the
result rows rendered as a JSON array of records. -/
def df_to_json_records (rows : List (CaseRow × Rat)) : List Char :=
  serialize (Json.arr (JsonList.ofList (rows.map rowRecordJson)))

/-- Model of `json.dumps` applied to a text: the text as a JSON string
literal. -/
def json_dumps_str (s : List Char) : List Char := serialize (Json.str s)

/-- The string returned by `vector_search_cases` for a given list of SQL
result rows: `json.dumps(df.to_json(orient="records"))`. -/
def cases_json (rows : List (CaseRow × Rat)) : List Char :=
  json_dumps_str (df_to_json_records rows)

/-- Evaluation of `datetime.strptime(s, "%Y-%m-%d")` as the code performs it
on each bound of the date range: the parsed date, or the offending input as
the propagated error. -/
def strptimeYmd (s : String) : Except String Date :=
  match parseYmd s with
  | some d => Except.ok d
  | none => Except.error s

/-- The SQL result rows of one invocation of `vector_search_cases`: both
dates are parsed (start first, as Python evaluates the parameter tuple), and
a parse failure propagates as an error. -/
def vector_search_rows (table : List CaseRow) (sim : CaseRow → Rat)
    (start_date end_date : String) (lim : Nat) :
    Except String (List (CaseRow × Rat)) :=
  match strptimeYmd start_date with
  | Except.error msg => Except.error msg
  | Except.ok s =>
    match strptimeYmd end_date with
    | Except.error msg => Except.error msg
    | Except.ok e => Except.ok (vector_search_sql table sim s e lim)

/-- The search tool itself: the JSON string built from the SQL result rows,
or the propagated date-parse error. -/
def vector_search_cases (table : List CaseRow) (sim : CaseRow → Rat)
    (start_date end_date : String) (lim : Nat) : Except String (List Char) :=
  (vector_search_rows table sim start_date end_date lim).map cases_json

/-- One result row of `count_cases` as a JSON record, as rendered by
`df.to_json(orient="records")` on the single `COUNT(*)` column. -/
def countRecordJson (n : Nat) : Json :=
  Json.obj (JsonFields.cons "count".toList (Json.num n) JsonFields.nil)

/-- The inner text `df.to_json(orient="records")` for the count tool. -/
def count_records_json (table : List CaseRow) (sim : CaseRow → Rat)
    (lim : Nat) : List Char :=
  serialize (Json.arr (JsonList.ofList
    ((count_cases_sql table sim lim).map countRecordJson)))

/-- The string returned by the count tool:
`json.dumps(df.to_json(orient="records"))`. -/
def count_cases (table : List CaseRow) (sim : CaseRow → Rat) (lim : Nat) :
    List Char :=
  json_dumps_str (count_records_json table sim lim)

/-! ### The run polling loop of `advanced_postgres_and_ai_agent_with_tracing.py`

The remote service is an oracle: the driver sees a sequence of run
observations, one per `get_run` call.  Each required function tool call
carries the outcome `functions.execute` would have: an output string, or a
raised error.  The loop body is modelled step for step:

`while run.status in ["queued", "in_progress", "requires_action"]:` poll;
on `requires_action` with a `SubmitToolOutputsAction`, cancel and break if
the batch is empty, otherwise execute each function call catching errors
per call, and submit the collected outputs if any. -/

/-- A tool call listed in a `requires_action` batch: a
`RequiredFunctionToolCall` whose execution yields an output or raises, or a
call of some other kind (skipped by the `isinstance` check). -/
inductive ToolCall where
  | functionCall (id : String) (exec : Except String String)
  | otherCall (id : String)

/-- The `required_action` field of a run observation:
a `SubmitToolOutputsAction` carrying its batch of tool calls, or anything
else (the `isinstance` check fails). -/
inductive RequiredAction where
  | submitToolOutputs (tool_calls : List ToolCall)
  | otherAction

/-- One observation of the remote run, as returned by `get_run`. -/
structure RunObs where
  status : String
  required_action : RequiredAction

/-- Externally visible service calls the loop issues. -/
inductive Event where
  | poll
  | cancel
  | submit (outputs : List (String × String))
deriving DecidableEq

/-- The `for tool_call in tool_calls` dispatch: function calls that execute
successfully contribute `(tool_call.id, output)`; a raised error is caught
and contributes nothing; non-function calls contribute nothing. -/
def execCalls : List ToolCall → List (String × String)
  | [] => []
  | ToolCall.functionCall i (Except.ok out) :: rest => (i, out) :: execCalls rest
  | ToolCall.functionCall _ (Except.error _) :: rest => execCalls rest
  | ToolCall.otherCall _ :: rest => execCalls rest

/-- The loop guard `run.status in ["queued", "in_progress",
"requires_action"]`. -/
def loopCond (s : String) : Bool :=
  s == "queued" || s == "in_progress" || s == "requires_action"

/-- The body of one iteration after the poll, for the freshly fetched
observation: the events it emits, and whether it breaks out of the loop. -/
def handleObs (run : RunObs) : List Event × Bool :=
  if run.status == "requires_action" then
    match run.required_action with
    | RequiredAction.submitToolOutputs tool_calls =>
      if tool_calls.isEmpty then ([Event.cancel], true)
      else
        let tool_outputs := execCalls tool_calls
        (if tool_outputs.isEmpty then [] else [Event.submit tool_outputs], false)
    | RequiredAction.otherAction => ([], false)
  else ([], false)

/-- The polling loop: given the current run observation and the sequence of
observations the remaining `get_run` calls would return, the list of service
calls issued.  The guard is checked against the current observation; each
iteration sleeps, polls the next observation, handles it, and loops on it
unless the body broke out. -/
def runLoop : RunObs → List RunObs → List Event
  | _, [] => []
  | run, next :: rest =>
    if loopCond run.status then
      Event.poll ::
        ((handleObs next).1 ++
          if (handleObs next).2 then [] else runLoop next rest)
    else []

/-! ### Agent resolution (shared by both driver scripts)

`get_agent("asst_mMiZtMQ1euvQtQ7hh56dMT96")` either returns an agent or
raises; on any failure the driver falls back to `create_agent` with the
configured model deployment and a name embedding the current timestamp. -/

/-- A remote agent definition, referenced by its opaque identifier. -/
structure Agent where
  id : String

/-- Arguments of the single `create_agent` call. -/
structure CreateAgentArgs where
  model : String
  name : String
  description : String

/-- The generated agent name
`f"legal-cases-agent-{datetime.now().strftime('%Y%m%d%H%M')}"`. -/
def agentName (timestamp : String) : String := "legal-cases-agent-" ++ timestamp

/-- Agent resolution: `lookup` is the outcome of the `get_agent` attempt
(`none` models a raised exception), `create` is the service's creation
oracle.  Returns the resolved agent and the list of creation calls
issued. -/
def resolveAgent (lookup : Option Agent) (create : CreateAgentArgs → Agent)
    (model_deployment timestamp : String) : Agent × List CreateAgentArgs :=
  match lookup with
  | some a => (a, [])
  | none =>
    let args : CreateAgentArgs :=
      ⟨model_deployment, agentName timestamp, "Legal Cases Agent"⟩
    (create args, [args])

/-! ### DSN to SQLAlchemy URI (`dsn_to_uri` and `SQLA_URI`)

`dsn_to_uri` does `parts = dict(p.split("=", 1) for p in dsn.split())` and
assembles an f-string.  `dict(...)` lets a later binding of the same key
override an earlier one, and raises if some part holds no `=`; a missing
`user`, `password` or `host` key raises `KeyError`.  Raised errors are
modelled as `none`. -/

/-- Python whitespace for `str.split()` with no arguments (ASCII range). -/
def isPyWs (c : Char) : Bool :=
  c == ' ' || c == '\t' || c == '\n' || c == '\x0d' || c == '\x0b' || c == '\x0c'

/-- Accumulator pass of `str.split()`: splits on runs of whitespace and
drops empty words. -/
def pySplitWsAux : List Char → List Char → List (List Char)
  | [], acc => if acc.isEmpty then [] else [acc.reverse]
  | c :: t, acc =>
    if isPyWs c then
      if acc.isEmpty then pySplitWsAux t [] else acc.reverse :: pySplitWsAux t []
    else pySplitWsAux t (c :: acc)

/-- Python `str.split()` with no arguments. -/
def pySplitWs (s : List Char) : List (List Char) := pySplitWsAux s []

/-- Python `p.split("=", 1)`: split at the first `=`; `none` when there is
no `=` (in which case `dict(...)` raises). -/
def splitEq1 : List Char → Option (List Char × List Char)
  | [] => none
  | c :: t =>
    if c = '=' then some ([], t)
    else
      match splitEq1 t with
      | none => none
      | some (k, v) => some (c :: k, v)

/-- The key-value pairs of the DSN, in textual order; `none` when some part
has no `=`. -/
def dsnPairs (dsn : String) : Option (List (List Char × List Char)) :=
  (pySplitWs dsn.toList).mapM splitEq1

/-- Lookup in a `dict` built from a pair sequence: the value of the last
binding of the key. -/
def dictGet : List (List Char × List Char) → List Char → Option (List Char)
  | [], _ => none
  | (k, v) :: rest, key =>
    match dictGet rest key with
    | some r => some r
    | none => if k = key then some v else none

/-- Python `parts.get(key, default)` on the same dict. -/
def dictGetD (parts : List (List Char × List Char)) (key dflt : List Char) :
    List Char :=
  (dictGet parts key).getD dflt

/-- Characters `urllib.parse.quote_plus` leaves unescaped. -/
def quoteSafe (c : Char) : Bool :=
  c.isAlphanum || c == '_' || c == '.' || c == '-' || c == '~'

/-- Uppercase hexadecimal digit of a value below 16. -/
def hexDigit (n : Nat) : Char :=
  if n < 10 then Char.ofNat (Char.toNat '0' + n)
  else Char.ofNat (Char.toNat 'A' + n - 10)

/-- `urllib.parse.quote_plus` on one character: safe characters pass, a
space becomes `+`, anything else is percent-encoded (per character, for the
ASCII range the DSN fields use). -/
def quoteChar (c : Char) : List Char :=
  if quoteSafe c then [c]
  else if c = ' ' then ['+']
  else ['%', hexDigit (c.toNat / 16 % 16), hexDigit (c.toNat % 16)]

/-- `urllib.parse.quote_plus` on a text. -/
def quotePlus (s : List Char) : List Char := (s.map quoteChar).flatten

/-- The f-string of `dsn_to_uri`, given the parsed dict. -/
def dsnUriOfParts (parts : List (List Char × List Char)) : Option (List Char) :=
  match dictGet parts "user".toList, dictGet parts "password".toList,
      dictGet parts "host".toList with
  | some user, some password, some host =>
    some ("postgresql+psycopg2://".toList ++ quotePlus user ++
      (':' :: quotePlus password) ++ ('@' :: host) ++
      (':' :: dictGetD parts "port".toList "5432".toList) ++
      ('/' :: dictGetD parts "dbname".toList
        (dictGetD parts "database".toList "postgres".toList)) ++
      "?sslmode=".toList ++ dictGetD parts "sslmode".toList "require".toList)
  | _, _, _ => none

/-- `dsn_to_uri`: convert a psycopg2-style DSN to a SQLAlchemy URI. -/
def dsn_to_uri (dsn : String) : Option (List Char) :=
  match dsnPairs dsn with
  | none => none
  | some parts => dsnUriOfParts parts

/-- `SQLA_URI = CONN_STR if "://" in CONN_STR else dsn_to_uri(CONN_STR)`. -/
def SQLA_URI_of (conn : String) : Option (List Char) :=
  if "://".toList <:+: conn.toList then some conn.toList else dsn_to_uri conn

/-! #### Spec-side model of the same conversion

Modelled from the spec sentence of claim C10: the connection string, when it
does not contain `://`, is parsed as space-separated `key=value` pairs into
a dictionary (later pairs override earlier ones, as a Python dict built from
a pair sequence does); the port defaults to `5432`, `sslmode` defaults to
`require`, the database name falls back from the `dbname` key to the
`database` key to `postgres`, and the user and password are URL-escaped in
the resulting URI.  The dictionary is built here the way Python builds it —
inserting pair after pair, a repeated key overriding in place — and looked
up front to back, to be compared with the last-binding lookup above. -/

/-- Insert one pair into an association list the way assignment into a
Python dict does: override in place, or append a fresh key. -/
def dictInsert (m : List (List Char × List Char))
    (kv : List Char × List Char) : List (List Char × List Char) :=
  match m with
  | [] => [kv]
  | (k, v) :: rest =>
    if k = kv.1 then (k, kv.2) :: rest else (k, v) :: dictInsert rest kv

/-- First-match lookup in an association list. -/
def assocGet : List (List Char × List Char) → List Char → Option (List Char)
  | [], _ => none
  | (k, v) :: rest, key => if k = key then some v else assocGet rest key

/-- The dictionary built by inserting the pairs one after the other. -/
def specDict (pairs : List (List Char × List Char)) :
    List (List Char × List Char) :=
  pairs.foldl dictInsert []

/-- Spec-side lookup with a default. -/
def specGetD (pairs : List (List Char × List Char)) (key dflt : List Char) :
    List Char :=
  (assocGet (specDict pairs) key).getD dflt

/-- Spec-side rendition of the URI for parsed pairs. -/
def dsnUriOfPartsSpec (pairs : List (List Char × List Char)) :
    Option (List Char) :=
  match assocGet (specDict pairs) "user".toList,
      assocGet (specDict pairs) "password".toList,
      assocGet (specDict pairs) "host".toList with
  | some user, some password, some host =>
    some ("postgresql+psycopg2://".toList ++ quotePlus user ++
      (':' :: quotePlus password) ++ ('@' :: host) ++
      (':' :: specGetD pairs "port".toList "5432".toList) ++
      ('/' :: specGetD pairs "dbname".toList
        (specGetD pairs "database".toList "postgres".toList)) ++
      "?sslmode=".toList ++ specGetD pairs "sslmode".toList "require".toList)
  | _, _, _ => none

/-- Spec-side DSN conversion. -/
def dsn_to_uri_spec (dsn : String) : Option (List Char) :=
  match dsnPairs dsn with
  | none => none
  | some pairs => dsnUriOfPartsSpec pairs

/-! ### Shared concrete fixtures for witnesses and counterexamples -/

/-- A similarity oracle assigning distance 0 to every row. -/
def sampleSim : CaseRow → Rat := fun _ => 0

/-- A sample case decided 2020-05-01. -/
def caseA : CaseRow := ⟨1, "A v. B", "water leak opinion", ⟨2020, 5, 1⟩⟩

/-- A sample case decided 2010-06-02. -/
def caseB : CaseRow := ⟨2, "C v. D", "other opinion", ⟨2010, 6, 2⟩⟩

/-- A sample `cases` table with two rows. -/
def sampleTable : List CaseRow := [caseA, caseB]

/-! ### Claims about the search and count tools -/

/-- C1: for every valid date range and positive limit, `vector_search_cases`
returns only records drawn from the table whose decision date lies within
`[start_date, end_date]` inclusive, ordered by non-decreasing similarity
distance (most similar first), with result count at most `limit`. -/
theorem claim_C1_search_in_range_sorted_limited
    (table : List CaseRow) (sim : CaseRow → Rat)
    (start_date end_date : String) (lim : Nat) (s e : Date)
    (hs : parseYmd start_date = some s) (he : parseYmd end_date = some e)
    (hlim : 0 < lim) :
    ∃ res,
      vector_search_rows table sim start_date end_date lim = Except.ok res ∧
      vector_search_cases table sim start_date end_date lim =
        Except.ok (cases_json res) ∧
      res.length ≤ lim ∧
      List.Sorted simLe res ∧
      ∀ r ∈ res, r.1 ∈ table ∧
        dateKey s ≤ dateKey r.1.decision_date ∧
        dateKey r.1.decision_date ≤ dateKey e := by
  have hrows : vector_search_rows table sim start_date end_date lim =
      Except.ok (vector_search_sql table sim s e lim) := by
    simp [vector_search_rows, strptimeYmd, hs, he]
  refine ⟨vector_search_sql table sim s e lim, hrows, ?_, ?_, ?_, ?_⟩
  · simp [vector_search_cases, hrows, Except.map]
  · exact List.length_take_le lim _
  · exact List.Pairwise.sublist (List.take_sublist _ _)
      (List.sorted_insertionSort simLe _)
  · intro r hr
    have h1 : r ∈ List.insertionSort simLe
        ((table.filter (fun q => dateInRange s e q.decision_date)).map
          (fun q => (q, sim q))) :=
      List.Sublist.mem hr (List.take_sublist _ _)
    have h2 := (List.perm_insertionSort simLe _).subset h1
    obtain ⟨r0, hr0, rfl⟩ := List.mem_map.1 h2
    obtain ⟨hmem, hpred⟩ := List.mem_filter.1 hr0
    have := hpred
    simp only [dateInRange, Bool.and_eq_true, decide_eq_true_eq] at this
    exact ⟨hmem, this.1, this.2⟩

/-- Witness for C1 at a concrete table, query, date range and limit. -/
theorem claim_C1_witness :
    ∃ res,
      vector_search_rows sampleTable sampleSim "2015-01-01" "2025-01-01" 5 =
        Except.ok res ∧
      vector_search_cases sampleTable sampleSim "2015-01-01" "2025-01-01" 5 =
        Except.ok (cases_json res) ∧
      res.length ≤ 5 ∧
      List.Sorted simLe res ∧
      ∀ r ∈ res, r.1 ∈ sampleTable ∧
        dateKey ⟨2015, 1, 1⟩ ≤ dateKey r.1.decision_date ∧
        dateKey r.1.decision_date ≤ dateKey ⟨2025, 1, 1⟩ :=
  claim_C1_search_in_range_sorted_limited sampleTable sampleSim
    "2015-01-01" "2025-01-01" 5 ⟨2015, 1, 1⟩ ⟨2025, 1, 1⟩
    (by decide) (by decide) (by decide)

/-- C2 counterexample: with two table rows at distance 0 (below the 0.8
threshold) and `limit = 1`, the count query returns the count 2, which
exceeds the limit — `LIMIT` bounds the number of result rows of the
aggregate (one), not the counted value. -/
theorem claim_C2_counterexample :
    (∃ n, n ∈ count_cases_sql sampleTable sampleSim 1 ∧ 1 < n) ∧
    count_cases sampleTable sampleSim 1 =
      json_dumps_str (serialize (Json.arr
        (JsonList.ofList [countRecordJson 2]))) :=
  ⟨⟨2, by decide⟩, by decide⟩

/-- C2 as amended: for every positive limit, `count_cases` returns the full
number of rows whose similarity distance is below the threshold — one
result row carrying the exact count, unaffected by `limit`. -/
theorem claim_C2_amended_count_is_uncapped
    (table : List CaseRow) (sim : CaseRow → Rat) (lim : Nat)
    (hlim : 0 < lim) :
    count_cases_sql table sim lim =
      [(table.filter (fun r => decide (sim r < mkRat 8 10))).length] := by
  cases lim with
  | zero => omega
  | succ k => simp [count_cases_sql]

/-- Witness for the amended C2 at a concrete table and limit. -/
theorem claim_C2_amended_witness :
    count_cases_sql sampleTable sampleSim 1 =
      [(sampleTable.filter (fun r => decide (sampleSim r < mkRat 8 10))).length] :=
  claim_C2_amended_count_is_uncapped sampleTable sampleSim 1 (by decide)

/-- Auxiliary: `JsonList.ofList` preserves length. -/
theorem JsonList.length_ofList (l : List Json) :
    (JsonList.ofList l).length = l.length := by
  induction l with
  | nil => rfl
  | cons j t ih => simp [JsonList.ofList, JsonList.length, ih]

/-- C3 counterexample: the string returned by the search tool for an empty
result set does not parse, in one pass, to any JSON list — the tool
double-encodes, so one parse yields a JSON string literal, not a list. -/
theorem claim_C3_counterexample :
    ¬ ∃ xs : JsonList, ParsesTo (cases_json []) (Json.arr xs) := by
  rintro ⟨xs, h⟩
  simp only [ParsesTo, serialize, cases_json, json_dumps_str,
    df_to_json_records, JsonList.ofList, serializeList, escape, escapeChar,
    List.map, List.flatten] at h
  exact absurd (List.cons.injEq .. ▸ congrArg id h).symm (by simp)

/-- C3 as amended: every tool result is the JSON encoding of a string
literal (one parse yields that string, not a list); the string it carries,
parsed in a second pass, is a JSON list with exactly one record per SQL
result row. -/
theorem claim_C3_amended_double_encoded_roundtrip :
    (∀ table sim start_date end_date lim,
      vector_search_cases table sim start_date end_date lim =
        (vector_search_rows table sim start_date end_date lim).map cases_json) ∧
    (∀ rows : List (CaseRow × Rat),
      ParsesTo (cases_json rows) (Json.str (df_to_json_records rows)) ∧
      ∃ xs : JsonList, ParsesTo (df_to_json_records rows) (Json.arr xs) ∧
        xs.length = rows.length) ∧
    (∀ table sim lim,
      ParsesTo (count_cases table sim lim)
        (Json.str (count_records_json table sim lim)) ∧
      ∃ ys : JsonList, ParsesTo (count_records_json table sim lim)
          (Json.arr ys) ∧
        ys.length = (count_cases_sql table sim lim).length) := by
  refine ⟨fun _ _ _ _ _ => rfl, fun rows => ⟨rfl, ?_⟩, fun table sim lim => ⟨rfl, ?_⟩⟩
  · exact ⟨JsonList.ofList (rows.map rowRecordJson), rfl,
      by simp [JsonList.length_ofList]⟩
  · exact ⟨JsonList.ofList ((count_cases_sql table sim lim).map countRecordJson),
      rfl, by simp [JsonList.length_ofList]⟩

/-! ### Claims about the polling loop -/

/-- Helper: a submission emitted while handling one observation can only
come from a `requires_action` status carrying a non-empty
`SubmitToolOutputsAction` batch, and carries exactly the executed
outputs. -/
theorem submit_mem_handleObs {outs : List (String × String)} {next : RunObs}
    (h : Event.submit outs ∈ (handleObs next).1) :
    next.status = "requires_action" ∧
    ∃ calls, next.required_action = RequiredAction.submitToolOutputs calls ∧
      calls ≠ [] ∧ outs = execCalls calls := by
  obtain ⟨st, ra⟩ := next
  by_cases hs : (st == "requires_action") = true
  · cases ra with
    | otherAction => simp [handleObs, hs] at h
    | submitToolOutputs calls =>
      by_cases hne : calls.isEmpty
      · simp [handleObs, hs, hne] at h
      · by_cases ho : (execCalls calls).isEmpty
        · simp [handleObs, hs, hne, ho] at h
        · simp only [handleObs, hs, if_true, hne, if_false, Bool.false_eq_true,
            ho, List.mem_singleton, Event.submit.injEq] at h
          exact ⟨by simpa using hs, calls, rfl,
            by simpa [List.isEmpty_iff] using hne, h⟩
  · simp [handleObs, hs] at h

/-- C4: in every execution of the session driver, a tool-output submission
is issued only for a polled observation whose state is exactly
`requires_action` and whose required action is a `SubmitToolOutputsAction`
(with a non-empty batch), and it carries the outputs of that batch. -/
theorem claim_C4_submit_only_in_requires_action
    (run : RunObs) (obss : List RunObs) (outs : List (String × String))
    (h : Event.submit outs ∈ runLoop run obss) :
    ∃ obs ∈ obss, obs.status = "requires_action" ∧
      ∃ calls, obs.required_action = RequiredAction.submitToolOutputs calls ∧
        calls ≠ [] ∧ outs = execCalls calls := by
  induction obss generalizing run with
  | nil => simp [runLoop] at h
  | cons next rest ih =>
    simp only [runLoop] at h
    by_cases hc : loopCond run.status = true
    · rw [if_pos hc] at h
      rcases List.mem_cons.1 h with h1 | h2
      · exact absurd h1 (by simp)
      · rcases List.mem_append.1 h2 with hb | hr
        · obtain ⟨hst, calls, hra, hne, houts⟩ := submit_mem_handleObs hb
          exact ⟨next, List.mem_cons_self _ _, hst, calls, hra, hne, houts⟩
        · by_cases hbrk : (handleObs next).2 = true
          · rw [if_pos hbrk] at hr
            simp at hr
          · rw [if_neg hbrk] at hr
            obtain ⟨obs, hobs, hrest⟩ := ih next hr
            exact ⟨obs, List.mem_cons_of_mem _ hobs, hrest⟩
    · rw [if_neg hc] at h
      simp at h

/-- Witness for C4: a concrete trace where a submission happens, and the
guaranteed shape of the observation that caused it. -/
theorem claim_C4_witness :
    ∃ obs ∈ [RunObs.mk "requires_action" (RequiredAction.submitToolOutputs
        [ToolCall.functionCall "call_1" (Except.ok "result")])],
      obs.status = "requires_action" ∧
      ∃ calls, obs.required_action = RequiredAction.submitToolOutputs calls ∧
        calls ≠ [] ∧ [("call_1", "result")] = execCalls calls :=
  claim_C4_submit_only_in_requires_action
    ⟨"queued", RequiredAction.otherAction⟩
    [RunObs.mk "requires_action" (RequiredAction.submitToolOutputs
      [ToolCall.functionCall "call_1" (Except.ok "result")])]
    [("call_1", "result")] (by decide)

/-- C5: whenever a polled `requires_action` observation reports an empty
tool-call batch, the driver cancels the run, breaks out of the loop, and
issues no tool-output submission from that point on: the remaining service
calls are exactly the poll and the cancellation. -/
theorem claim_C5_empty_batch_cancels_run
    (run : RunObs) (rest : List RunObs) (hc : loopCond run.status = true) :
    runLoop run
      (⟨"requires_action", RequiredAction.submitToolOutputs []⟩ :: rest) =
      [Event.poll, Event.cancel] := by
  simp [runLoop, hc, handleObs]

/-- Witness for C5 on a concrete trace. -/
theorem claim_C5_witness :
    runLoop ⟨"queued", RequiredAction.otherAction⟩
      (⟨"requires_action", RequiredAction.submitToolOutputs []⟩ ::
        [⟨"completed", RequiredAction.otherAction⟩]) =
      [Event.poll, Event.cancel] :=
  claim_C5_empty_batch_cancels_run ⟨"queued", RequiredAction.otherAction⟩
    [⟨"completed", RequiredAction.otherAction⟩] (by decide)

/-- C6: for a `requires_action` batch holding one failing and one
succeeding function call (in either order), the error is caught per call,
the loop is not aborted, and the submission contains exactly one output,
paired with the identifier of the succeeding call. -/
theorem claim_C6_partial_failure_submits_only_success
    (run : RunObs) (rest : List RunObs) (i1 i2 msg out : String)
    (hc : loopCond run.status = true) :
    runLoop run (⟨"requires_action", RequiredAction.submitToolOutputs
        [ToolCall.functionCall i1 (Except.error msg),
         ToolCall.functionCall i2 (Except.ok out)]⟩ :: rest) =
      Event.poll :: Event.submit [(i2, out)] ::
        runLoop ⟨"requires_action", RequiredAction.submitToolOutputs
          [ToolCall.functionCall i1 (Except.error msg),
           ToolCall.functionCall i2 (Except.ok out)]⟩ rest ∧
    runLoop run (⟨"requires_action", RequiredAction.submitToolOutputs
        [ToolCall.functionCall i1 (Except.ok out),
         ToolCall.functionCall i2 (Except.error msg)]⟩ :: rest) =
      Event.poll :: Event.submit [(i1, out)] ::
        runLoop ⟨"requires_action", RequiredAction.submitToolOutputs
          [ToolCall.functionCall i1 (Except.ok out),
           ToolCall.functionCall i2 (Except.error msg)]⟩ rest := by
  constructor <;> simp [runLoop, hc, handleObs, execCalls]

/-- Witness for C6 on a concrete trace. -/
theorem claim_C6_witness :
    runLoop ⟨"queued", RequiredAction.otherAction⟩
      (⟨"requires_action", RequiredAction.submitToolOutputs
          [ToolCall.functionCall "call_err" (Except.error "boom"),
           ToolCall.functionCall "call_ok" (Except.ok "result")]⟩ ::
        [⟨"completed", RequiredAction.otherAction⟩]) =
      Event.poll :: Event.submit [("call_ok", "result")] ::
        runLoop ⟨"requires_action", RequiredAction.submitToolOutputs
          [ToolCall.functionCall "call_err" (Except.error "boom"),
           ToolCall.functionCall "call_ok" (Except.ok "result")]⟩
          [⟨"completed", RequiredAction.otherAction⟩] ∧
    runLoop ⟨"queued", RequiredAction.otherAction⟩
      (⟨"requires_action", RequiredAction.submitToolOutputs
          [ToolCall.functionCall "call_err" (Except.ok "result"),
           ToolCall.functionCall "call_ok" (Except.error "boom")]⟩ ::
        [⟨"completed", RequiredAction.otherAction⟩]) =
      Event.poll :: Event.submit [("call_err", "result")] ::
        runLoop ⟨"requires_action", RequiredAction.submitToolOutputs
          [ToolCall.functionCall "call_err" (Except.ok "result"),
           ToolCall.functionCall "call_ok" (Except.error "boom")]⟩
          [⟨"completed", RequiredAction.otherAction⟩] :=
  claim_C6_partial_failure_submits_only_success
    ⟨"queued", RequiredAction.otherAction⟩
    [⟨"completed", RequiredAction.otherAction⟩]
    "call_err" "call_ok" "boom" "result" (by decide)

/-- C7: the loop terminates at the first terminal state — from a terminal
observation it issues no service call at all, and the events of any trace
are unchanged by whatever observations would follow the first terminal
one (so no further poll is ever issued after observing it). -/
theorem claim_C7_terminal_state_stops_polling (t : RunObs)
    (ht : loopCond t.status = false) :
    (∀ obss, runLoop t obss = []) ∧
    (∀ (run : RunObs) (pre post : List RunObs),
      runLoop run (pre ++ t :: post) = runLoop run (pre ++ [t])) := by
  have h1 : ∀ obss, runLoop t obss = [] := by
    intro obss
    cases obss with
    | nil => rfl
    | cons a l => simp [runLoop, ht]
  refine ⟨h1, ?_⟩
  intro run pre post
  induction pre generalizing run with
  | nil => simp [runLoop, h1]
  | cons p pr ih => simp [List.cons_append, runLoop, ih]

/-- Witness for C7 on concrete traces around the terminal state
`completed`. -/
theorem claim_C7_witness :
    runLoop ⟨"completed", RequiredAction.otherAction⟩
      [⟨"queued", RequiredAction.otherAction⟩] = [] ∧
    runLoop ⟨"queued", RequiredAction.otherAction⟩
      ([⟨"in_progress", RequiredAction.otherAction⟩] ++
        ⟨"completed", RequiredAction.otherAction⟩ ::
          [⟨"queued", RequiredAction.otherAction⟩]) =
      runLoop ⟨"queued", RequiredAction.otherAction⟩
        ([⟨"in_progress", RequiredAction.otherAction⟩] ++
          [⟨"completed", RequiredAction.otherAction⟩]) :=
  ⟨(claim_C7_terminal_state_stops_polling
      ⟨"completed", RequiredAction.otherAction⟩ (by decide)).1 _,
    (claim_C7_terminal_state_stops_polling
      ⟨"completed", RequiredAction.otherAction⟩ (by decide)).2 _ _ _⟩

/-! ### Claims about agent resolution, date errors and DSN conversion -/

/-- C8: if the agent lookup by the fixed identifier succeeds, no
agent-creation call is issued; if it fails for any reason, exactly one
creation call is issued, with the configured model name and a generated
name containing (here: ending in) the current timestamp. -/
theorem claim_C8_lookup_or_single_creation
    (lookup : Option Agent) (create : CreateAgentArgs → Agent)
    (model_deployment timestamp : String) :
    (∀ a, lookup = some a →
      (resolveAgent lookup create model_deployment timestamp).2 = []) ∧
    (lookup = none →
      ∃ args, (resolveAgent lookup create model_deployment timestamp).2 =
          [args] ∧
        args.model = model_deployment ∧
        ∃ p, args.name = p ++ timestamp) := by
  constructor
  · rintro a rfl
    rfl
  · rintro rfl
    exact ⟨⟨model_deployment, agentName timestamp, "Legal Cases Agent"⟩,
      rfl, rfl, "legal-cases-agent-", rfl⟩

/-- Witness for C8: a successful lookup issues no creation; a failed lookup
issues exactly one creation with the model name and timestamped name. -/
theorem claim_C8_witness :
    (resolveAgent (some ⟨"asst_mMiZtMQ1euvQtQ7hh56dMT96"⟩) (fun a => ⟨a.name⟩)
        "gpt-4o" "202501011200").2 = [] ∧
    ∃ args, (resolveAgent none (fun a => ⟨a.name⟩)
        "gpt-4o" "202501011200").2 = [args] ∧
      args.model = "gpt-4o" ∧
      ∃ p, args.name = p ++ "202501011200" :=
  ⟨(claim_C8_lookup_or_single_creation (some ⟨"asst_mMiZtMQ1euvQtQ7hh56dMT96"⟩)
      (fun a => ⟨a.name⟩) "gpt-4o" "202501011200").1 _ rfl,
    (claim_C8_lookup_or_single_creation none
      (fun a => ⟨a.name⟩) "gpt-4o" "202501011200").2 rfl⟩

/-- C9 counterexample: `"2020-1-2"` is not a strict ISO `YYYY-MM-DD` date,
yet `strptime` with format `%Y-%m-%d` accepts it, so the search tool
returns a result instead of propagating an error. -/
theorem claim_C9_counterexample :
    isIsoYmd "2020-1-2" = false ∧
    vector_search_cases [] sampleSim "2020-1-2" "2020-12-31" 10 =
      Except.ok (cases_json []) :=
  ⟨rfl, rfl⟩

/-- C9 as amended: for every call whose `start_date` or `end_date` is not
parseable by `datetime.strptime` with format `%Y-%m-%d` (which accepts
strict ISO `YYYY-MM-DD` dates and also unpadded months and days), the parse
error propagates to the caller — the tool returns the error, with no
retry. -/
theorem claim_C9_amended_bad_date_propagates
    (table : List CaseRow) (sim : CaseRow → Rat)
    (start_date end_date : String) (lim : Nat)
    (h : parseYmd start_date = none ∨ parseYmd end_date = none) :
    ∃ msg, vector_search_cases table sim start_date end_date lim =
      Except.error msg := by
  cases hsd : parseYmd start_date with
  | none =>
    exact ⟨start_date, by
      simp [vector_search_cases, vector_search_rows, strptimeYmd, hsd,
        Except.map]⟩
  | some s =>
    rcases h with h | h
    · exact absurd hsd (by simp [h])
    · exact ⟨end_date, by
        simp [vector_search_cases, vector_search_rows, strptimeYmd, hsd, h,
          Except.map]⟩

/-- Witness for the amended C9 at a concrete malformed date. -/
theorem claim_C9_amended_witness :
    ∃ msg, vector_search_cases sampleTable sampleSim
        "not-a-date" "2025-01-01" 10 = Except.error msg :=
  claim_C9_amended_bad_date_propagates sampleTable sampleSim
    "not-a-date" "2025-01-01" 10 (Or.inl (by decide))

/-- Helper: looking a key up in the Python dict built by inserting a pair
overriding that key yields the inserted value. -/
theorem assocGet_dictInsert_self (m : List (List Char × List Char))
    (k v : List Char) : assocGet (dictInsert m (k, v)) k = some v := by
  induction m with
  | nil => simp [dictInsert, assocGet]
  | cons kv rest ih =>
    obtain ⟨k1, v1⟩ := kv
    by_cases hk : k1 = k
    · subst hk
      simp [dictInsert, assocGet]
    · simp [dictInsert, assocGet, hk, ih]

/-- Helper: inserting a pair for a different key leaves a lookup
unchanged. -/
theorem assocGet_dictInsert_ne (m : List (List Char × List Char))
    (k v key : List Char) (h : k ≠ key) :
    assocGet (dictInsert m (k, v)) key = assocGet m key := by
  induction m with
  | nil => simp [dictInsert, assocGet, h]
  | cons kv rest ih =>
    obtain ⟨k1, v1⟩ := kv
    by_cases hk : k1 = k
    · subst hk
      simp [dictInsert, assocGet, h]
    · simp [dictInsert, assocGet, hk, ih]

/-- Helper: a lookup in the dict built by folding insertions over the pair
sequence sees the last binding of the key, or falls back to the initial
dict. -/
theorem assocGet_foldl_dictInsert (pairs : List (List Char × List Char))
    (m : List (List Char × List Char)) (key : List Char) :
    assocGet (List.foldl dictInsert m pairs) key =
      match dictGet pairs key with
      | some v => some v
      | none => assocGet m key := by
  induction pairs generalizing m with
  | nil => simp [dictGet]
  | cons kv rest ih =>
    obtain ⟨k, v⟩ := kv
    rw [List.foldl_cons, ih]
    cases hres : dictGet rest key with
    | some r => simp [dictGet, hres]
    | none =>
      by_cases hk : k = key
      · subst hk
        simp [dictGet, hres, assocGet_dictInsert_self]
      · simp [dictGet, hres, hk, assocGet_dictInsert_ne _ _ _ _ hk]

/-- Helper: the spec-side dict lookup agrees with the last-binding
lookup. -/
theorem assocGet_specDict (pairs : List (List Char × List Char))
    (key : List Char) :
    assocGet (specDict pairs) key = dictGet pairs key := by
  rw [specDict, assocGet_foldl_dictInsert]
  cases dictGet pairs key <;> simp [assocGet]

/-- C10: a configured connection string containing `://` is used verbatim
as the SQLAlchemy URI; otherwise it is parsed as whitespace-separated
`key=value` pairs where the port defaults to `5432`, `sslmode` defaults to
`require`, the database name falls back from `dbname` to `database` to
`postgres`, and the user and password are URL-escaped in the resulting URI —
the source conversion agrees with the conversion spelled out from the
spec's words. -/
theorem claim_C10_dsn_to_uri
    (conn : String) :
    ("://".toList <:+: conn.toList → SQLA_URI_of conn = some conn.toList) ∧
    (¬ "://".toList <:+: conn.toList → SQLA_URI_of conn = dsn_to_uri conn) ∧
    dsn_to_uri conn = dsn_to_uri_spec conn := by
  refine ⟨fun h => by rw [SQLA_URI_of, if_pos h],
    fun h => by rw [SQLA_URI_of, if_neg h], ?_⟩
  rw [dsn_to_uri, dsn_to_uri_spec]
  cases dsnPairs conn with
  | none => rfl
  | some pairs =>
    simp only [dsnUriOfParts, dsnUriOfPartsSpec, specGetD, dictGetD,
      assocGet_specDict]

set_option maxRecDepth 8192 in
/-- Witness for C10 on a URI-style connection string and on the DSN of the
source docstring. -/
theorem claim_C10_witness :
    SQLA_URI_of "postgresql+psycopg2://admin:pw@h:5432/postgres" =
      some "postgresql+psycopg2://admin:pw@h:5432/postgres".toList ∧
    SQLA_URI_of
        "host=psql.example.com dbname=postgres user=admintest password=Pa55 port=5432 sslmode=require" =
      dsn_to_uri
        "host=psql.example.com dbname=postgres user=admintest password=Pa55 port=5432 sslmode=require" :=
  ⟨(claim_C10_dsn_to_uri
      "postgresql+psycopg2://admin:pw@h:5432/postgres").1 (by decide),
    (claim_C10_dsn_to_uri
      "host=psql.example.com dbname=postgres user=admintest password=Pa55 port=5432 sslmode=require").2.1
      (by decide)⟩

end LegalAgent
